import Mathlib

/-!
Verification development for the gstfecframe repository (RFC 6865 style
Reed-Solomon FEC framing for GStreamer).

The definitions below are a shallow embedding of the C sources
src/reed-solomon/gstrsfecdec.c and src/reed-solomon/gstrsfecenc.c.
Machine integers (guint, 32-bit) are modelled as Nat with explicit
reductions modulo 4294967296 where the C code can wrap, and modulo
16777216 for the 24-bit source block number space.  Buffers (GstBuffer)
are modelled as byte lists (List Nat).  External collaborators (the
OpenFEC erasure coder and the downstream pads) are out of scope of the
specification; the erasure coder is modelled as an oracle parameter and
the downstream pushes are recorded in an event log.
-/

/-- The constant newer_range = 1u << 22 from gstrsfecdec.c. -/
def newer_range : Nat := 4194304

/-- The constant total_range = 1u << 24 from gstrsfecdec.c (size of the
source block number space). -/
def total_range : Nat := 16777216

/-- Size of the value space of a C guint (32 bits), used to model the
wrap-around of unsigned arithmetic in gstrsfecdec.c. -/
def guint_wrap : Nat := 4294967296

/-- Shallow embedding of gst_rs_fec_dec_check_if_source_block_in_range
(gstrsfecdec.c lines 1406-1414): membership of block_nr in the interval
described by start and stop, interpreted circularly when start > stop. -/
def gst_rs_fec_dec_check_if_source_block_in_range (block_nr start stop : Nat) : Bool :=
  if start < stop then decide (block_nr ≥ start) && decide (block_nr ≤ stop)
  else if start > stop then decide (block_nr ≤ stop) || decide (block_nr ≥ start)
  else block_nr == start

/-- Shallow embedding of gst_rs_fec_dec_is_source_block_nr_newer
(gstrsfecdec.c lines 1362-1385).  The C code computes
start = reference_block_nr + 1 without masking (reference values are
24-bit, so the guint addition cannot wrap), while the end of the range
is masked to 24 bits; both are reproduced exactly. -/
def gst_rs_fec_dec_is_source_block_nr_newer (candidate_block_nr reference_block_nr : Nat) : Bool :=
  gst_rs_fec_dec_check_if_source_block_in_range candidate_block_nr
    (reference_block_nr + 1)
    ((reference_block_nr + (newer_range - 1)) % total_range)

/-- Shallow embedding of gst_rs_fec_dec_is_source_block_nr_recent_enough
(gstrsfecdec.c lines 1388-1403).  The C expression
(reference_block_nr + total_range - (max_age - 1)) is computed in guint
(32-bit) arithmetic and then masked to 24 bits; the addition of
guint_wrap before the subtraction models the unsigned wrap-around for
1 <= max_age < 2^32 (the element property enforces max_age >= 1). -/
def gst_rs_fec_dec_is_source_block_nr_recent_enough (candidate_block_nr reference_block_nr max_age : Nat) : Bool :=
  gst_rs_fec_dec_check_if_source_block_in_range candidate_block_nr
    (((reference_block_nr + total_range + guint_wrap - (max_age - 1)) % guint_wrap) % total_range)
    ((reference_block_nr + (newer_range - 1)) % total_range)

/-- Modelled from the spec: membership of c in the circular range from a
to b inside the 24-bit block number space, phrased through the circular
distance from a (for arguments below total_range). -/
def in_circular_range (c a b : Nat) : Bool :=
  decide ((c + total_range - a) % total_range ≤ (b + total_range - a) % total_range)


theorem total_range_pos : 0 < total_range := by decide

theorem newer_sub_one_lt : newer_range - 1 < total_range := by decide

theorem one_le_newer_range : 1 ≤ newer_range := by decide

theorem wrap_eq_total_mul : guint_wrap = total_range * 256 := by decide

theorem mod_wrap_mod_total (x : Nat) : x % guint_wrap % total_range = x % total_range :=
  Nat.mod_mod_of_dvd x ⟨256, wrap_eq_total_mul⟩

theorem mod_small (x : Nat) (h : x < 2 * total_range) :
    x % total_range = if x < total_range then x else x - total_range := by
  split_ifs with hx
  · exact Nat.mod_eq_of_lt hx
  · rw [Nat.mod_eq_sub_mod (Nat.le_of_not_lt hx)]
    exact Nat.mod_eq_of_lt (by omega)

theorem newer_sub_one (ref : Nat) : ref + (newer_range - 1) = ref + newer_range - 1 :=
  (Nat.add_sub_assoc one_le_newer_range ref).symm

theorem stop_mod_lt (ref : Nat) : (ref + (newer_range - 1)) % total_range < total_range :=
  Nat.mod_lt _ total_range_pos

theorem stop_ne_ref (ref : Nat) (href : ref < total_range) :
    (ref + (newer_range - 1)) % total_range ≠ ref := by
  have hT := total_range_pos
  have hR1 := newer_sub_one_lt
  have hR2 := one_le_newer_range
  have hRT : newer_range < total_range := by decide
  have hR3 : 2 ≤ newer_range := by decide
  rw [mod_small (ref + (newer_range - 1)) (by omega)]
  split_ifs <;> omega

theorem recent_start_one (ref : Nat) (href : ref < total_range) :
    (ref + total_range + guint_wrap - (1 - 1)) % guint_wrap % total_range = ref := by
  rw [mod_wrap_mod_total, Nat.sub_self, Nat.sub_zero, wrap_eq_total_mul]
  have h1 : ref + total_range + total_range * 256 = ref + total_range * 257 := by ring
  rw [h1, Nat.add_mul_mod_self_left]
  exact Nat.mod_eq_of_lt href

theorem recent_start_mod (ref max_age : Nat) :
    (ref + total_range + guint_wrap - (max_age - 1)) % guint_wrap % total_range
      = (ref + guint_wrap + total_range - (max_age - 1)) % total_range := by
  rw [mod_wrap_mod_total, Nat.add_right_comm ref total_range guint_wrap]

theorem check_eq_circular (c a b : Nat) (hc : c < total_range)
    (ha : a ≤ total_range) (hb : b < total_range) :
    gst_rs_fec_dec_check_if_source_block_in_range c a b
      = in_circular_range c (a % total_range) b := by
  have hT := total_range_pos
  rcases Nat.lt_or_ge a total_range with ha2 | ha2
  · rw [Nat.mod_eq_of_lt ha2]
    unfold gst_rs_fec_dec_check_if_source_block_in_range in_circular_range
    rw [mod_small (c + total_range - a) (by omega), mod_small (b + total_range - a) (by omega),
      Bool.eq_iff_iff]
    split_ifs <;>
      simp only [Bool.and_eq_true, Bool.or_eq_true, decide_eq_true_eq, beq_iff_eq,
        ge_iff_le, iff_true, iff_false, not_and, not_or, not_le, not_lt] <;>
      omega
  · have ha3 : a = total_range := by omega
    subst ha3
    rw [Nat.mod_self]
    unfold gst_rs_fec_dec_check_if_source_block_in_range in_circular_range
    simp only [Nat.sub_zero, Nat.add_mod_right, Nat.mod_eq_of_lt hc, Nat.mod_eq_of_lt hb]
    rw [Bool.eq_iff_iff]
    split_ifs <;>
      simp only [Bool.and_eq_true, Bool.or_eq_true, decide_eq_true_eq, beq_iff_eq,
        ge_iff_le, iff_true, iff_false, not_and, not_or, not_le, not_lt] <;>
      omega

theorem check_succ_or_self (c ref b : Nat) (hc : c < total_range) (href : ref < total_range)
    (hb : b < total_range) (hne : b ≠ ref) :
    gst_rs_fec_dec_check_if_source_block_in_range c ref b
      = (c == ref || gst_rs_fec_dec_check_if_source_block_in_range c (ref + 1) b) := by
  unfold gst_rs_fec_dec_check_if_source_block_in_range
  rw [Bool.eq_iff_iff]
  split_ifs <;>
    simp only [Bool.and_eq_true, Bool.or_eq_true, decide_eq_true_eq, beq_iff_eq,
      ge_iff_le, iff_true, iff_false, not_and, not_or, not_le, not_lt] <;>
    omega

theorem check_succ_true (ref : Nat) (href : ref < total_range) :
    gst_rs_fec_dec_check_if_source_block_in_range ((ref + 1) % total_range) (ref + 1)
      ((ref + (newer_range - 1)) % total_range) = true := by
  have hT := total_range_pos
  have hR1 := newer_sub_one_lt
  have hR2 := one_le_newer_range
  have hRT : newer_range < total_range := by decide
  have hR3 : 2 ≤ newer_range - 1 := by decide
  unfold gst_rs_fec_dec_check_if_source_block_in_range
  rw [mod_small (ref + 1) (by omega), mod_small (ref + (newer_range - 1)) (by omega),
    Bool.eq_iff_iff]
  split_ifs <;>
    simp only [Bool.and_eq_true, Bool.or_eq_true, decide_eq_true_eq, beq_iff_eq,
      ge_iff_le, iff_true, iff_false, not_and, not_or, not_le, not_lt] <;>
    omega

theorem check_self_false (ref : Nat) (href : ref < total_range) :
    gst_rs_fec_dec_check_if_source_block_in_range ref (ref + 1)
      ((ref + (newer_range - 1)) % total_range) = false := by
  have hT := total_range_pos
  have hR1 := newer_sub_one_lt
  have hR2 := one_le_newer_range
  have hRT : newer_range < total_range := by decide
  have hR3 : 2 ≤ newer_range - 1 := by decide
  unfold gst_rs_fec_dec_check_if_source_block_in_range
  rw [mod_small (ref + (newer_range - 1)) (by omega), Bool.eq_iff_iff]
  split_ifs <;>
    simp only [Bool.and_eq_true, Bool.or_eq_true, decide_eq_true_eq, beq_iff_eq,
      ge_iff_le, iff_true, iff_false, not_and, not_or, not_le, not_lt] <;>
    omega

theorem check_pred_succ_false (ref : Nat) (href : ref < total_range) :
    gst_rs_fec_dec_check_if_source_block_in_range ((ref + total_range - 1) % total_range) (ref + 1)
      ((ref + (newer_range - 1)) % total_range) = false := by
  have hT := total_range_pos
  have hR1 := newer_sub_one_lt
  have hR2 := one_le_newer_range
  have hRT : newer_range < total_range := by decide
  have hR3 : 2 ≤ newer_range - 1 := by decide
  unfold gst_rs_fec_dec_check_if_source_block_in_range
  rw [mod_small (ref + total_range - 1) (by omega), mod_small (ref + (newer_range - 1)) (by omega),
    Bool.eq_iff_iff]
  split_ifs <;>
    simp only [Bool.and_eq_true, Bool.or_eq_true, decide_eq_true_eq, beq_iff_eq,
      ge_iff_le, iff_true, iff_false, not_and, not_or, not_le, not_lt] <;>
    omega

theorem check_pred_false (ref : Nat) (href : ref < total_range) :
    gst_rs_fec_dec_check_if_source_block_in_range ((ref + total_range - 1) % total_range) ref
      ((ref + (newer_range - 1)) % total_range) = false := by
  have hT := total_range_pos
  have hR1 := newer_sub_one_lt
  have hR2 := one_le_newer_range
  have hRT : newer_range < total_range := by decide
  have hR3 : 2 ≤ newer_range - 1 := by decide
  unfold gst_rs_fec_dec_check_if_source_block_in_range
  rw [mod_small (ref + total_range - 1) (by omega), mod_small (ref + (newer_range - 1)) (by omega),
    Bool.eq_iff_iff]
  split_ifs <;>
    simp only [Bool.and_eq_true, Bool.or_eq_true, decide_eq_true_eq, beq_iff_eq,
      ge_iff_le, iff_true, iff_false, not_and, not_or, not_le, not_lt] <;>
    omega

/-- C8: for every 24-bit reference ref (including 0 and 2^24-1), the
newer-classification predicate holds of (ref+1) mod 2^24, fails of ref
itself and of (ref-1) mod 2^24, and a candidate is classified newer
exactly when it lies in the circular range from (ref+1) mod 2^24 to
(ref+2^22-1) mod 2^24. -/
theorem newer_predicate_spec (ref c : Nat) (href : ref < total_range) (hc : c < total_range) :
    gst_rs_fec_dec_is_source_block_nr_newer ((ref + 1) % total_range) ref = true
    ∧ gst_rs_fec_dec_is_source_block_nr_newer ref ref = false
    ∧ gst_rs_fec_dec_is_source_block_nr_newer ((ref + total_range - 1) % total_range) ref = false
    ∧ gst_rs_fec_dec_is_source_block_nr_newer c ref
        = in_circular_range c ((ref + 1) % total_range) ((ref + newer_range - 1) % total_range) := by
  unfold gst_rs_fec_dec_is_source_block_nr_newer
  refine ⟨check_succ_true ref href, check_self_false ref href, check_pred_succ_false ref href, ?_⟩
  rw [check_eq_circular c (ref + 1) _ hc href (stop_mod_lt ref), newer_sub_one]

/-- C8 witness at a concrete reference and candidate. -/
theorem newer_predicate_spec_witness :
    (0 < total_range ∧ 5 < total_range)
    ∧ (gst_rs_fec_dec_is_source_block_nr_newer ((0 + 1) % total_range) 0 = true
    ∧ gst_rs_fec_dec_is_source_block_nr_newer 0 0 = false
    ∧ gst_rs_fec_dec_is_source_block_nr_newer ((0 + total_range - 1) % total_range) 0 = false
    ∧ gst_rs_fec_dec_is_source_block_nr_newer 5 0
        = in_circular_range 5 ((0 + 1) % total_range) ((0 + newer_range - 1) % total_range)) :=
  ⟨⟨by decide, by decide⟩, newer_predicate_spec 0 5 (by decide) (by decide)⟩

/-- C9: for every 24-bit reference ref and every max_age in the guint
range with max_age >= 1 (enforced by the element property), the recency
predicate accepts exactly the circular range from (ref-(max_age-1))
mod 2^24 to (ref+2^22-1) mod 2^24; with max_age = 1 it accepts exactly
ref itself together with the candidates classified newer than ref, and
in particular rejects (ref-1) mod 2^24. -/
theorem recent_enough_predicate_spec (ref c max_age : Nat)
    (href : ref < total_range) (hc : c < total_range)
    (hage1 : 1 ≤ max_age) (hage2 : max_age < guint_wrap) :
    gst_rs_fec_dec_is_source_block_nr_recent_enough c ref 1
      = (c == ref || gst_rs_fec_dec_is_source_block_nr_newer c ref)
    ∧ gst_rs_fec_dec_is_source_block_nr_recent_enough ((ref + total_range - 1) % total_range) ref 1 = false
    ∧ gst_rs_fec_dec_is_source_block_nr_recent_enough c ref max_age
        = in_circular_range c ((ref + guint_wrap + total_range - (max_age - 1)) % total_range)
            ((ref + newer_range - 1) % total_range) := by
  unfold gst_rs_fec_dec_is_source_block_nr_recent_enough
  refine ⟨?_, ?_, ?_⟩
  · rw [recent_start_one ref href,
      check_succ_or_self c ref _ hc href (stop_mod_lt ref) (stop_ne_ref ref href)]
    rfl
  · rw [recent_start_one ref href, check_pred_false ref href]
  · rw [recent_start_mod ref max_age,
      check_eq_circular c _ _ hc (Nat.le_of_lt (Nat.mod_lt _ total_range_pos)) (stop_mod_lt ref),
      Nat.mod_eq_of_lt (Nat.mod_lt _ total_range_pos), newer_sub_one]

/-- C9 witness at a concrete reference, candidate and maximum age. -/
theorem recent_enough_predicate_spec_witness :
    (7 < total_range ∧ 3 < total_range ∧ 1 ≤ 2 ∧ 2 < guint_wrap)
    ∧ (gst_rs_fec_dec_is_source_block_nr_recent_enough 3 7 1
      = (3 == 7 || gst_rs_fec_dec_is_source_block_nr_newer 3 7)
    ∧ gst_rs_fec_dec_is_source_block_nr_recent_enough ((7 + total_range - 1) % total_range) 7 1 = false
    ∧ gst_rs_fec_dec_is_source_block_nr_recent_enough 3 7 2
        = in_circular_range 3 ((7 + guint_wrap + total_range - (2 - 1)) % total_range)
            ((7 + newer_range - 1) % total_range)) :=
  ⟨⟨by decide, by decide, by decide, by decide⟩,
    recent_enough_predicate_spec 7 3 2 (by decide) (by decide) (by decide) (by decide)⟩

/-- GstFlowReturn values relevant to the embedded fragment. -/
inductive FlowRet
  | ok
  | error
  | eos
deriving DecidableEq, Repr

/-- Observable decoder events, in chronological order: an ADU pushed
downstream (gst_rs_fec_dec_push_adu via gst_rs_fec_dec_push_source_block
or the immediate-output paths), an invocation of source block processing
(gst_rs_fec_dec_process_source_block), and an invocation of the OpenFEC
erasure-coding collaborator (the session set-up and decode calls inside
the processing function). -/
inductive DecEvent
  | push (block_nr esi : Nat) (adu : List Nat)
  | process (block_nr : Nat)
  | collab (block_nr : Nat)
deriving DecidableEq, Repr

/-- Decoder configuration properties, immutable during a session. -/
structure DecCfg where
  num_source_symbols : Nat
  num_repair_symbols : Nat
  max_source_block_age : Nat
  sort_output : Bool
deriving DecidableEq, Repr

/-- Shallow embedding of GstRSFECDecSourceBlock (gstrsfecdec.c lines
122-157).  The 512-bit packet_mask is modelled as the list of ESIs whose
bit is set; the packet lists keep the prepend order of g_slist_prepend;
output_adu_table has one optional ADU slot per source symbol. -/
structure SourceBlock where
  block_nr : Nat
  packet_mask : List Nat
  source_packets : List (List Nat)
  repair_packets : List (List Nat)
  num_source_packets : Nat
  num_repair_packets : Nat
  output_adu_table : List (Option (List Nat))
  is_complete : Bool
deriving DecidableEq, Repr

/-- Decoder state fragment relevant to the source block table and the
aging engine.  The hash table is modelled as a list in insertion order
(iteration order is irrelevant to delivery because pruned and drained
blocks are sorted before being pushed); the event list records
downstream-visible activity. -/
structure DecState where
  source_block_table : List SourceBlock
  first_pruning : Bool
  most_recent_block_nr : Nat
  events : List DecEvent
deriving DecidableEq, Repr

/-- Block number of a FEC source packet, read big-endian from the first
three of the trailing 6 payload-ID bytes
(gst_rs_fec_dec_source_packet_read_payload_id). -/
def source_packet_block_nr (p : List Nat) : Nat :=
  (p.getD (p.length - 6) 0) * 65536 + (p.getD (p.length - 5) 0) * 256 + p.getD (p.length - 4) 0

/-- ESI of a FEC source packet, read from the fourth of the trailing 6
payload-ID bytes. -/
def source_packet_esi (p : List Nat) : Nat := p.getD (p.length - 3) 0

/-- Block number of a FEC repair packet, read big-endian from the first
three bytes (gst_rs_fec_dec_repair_packet_read_payload_id). -/
def repair_packet_block_nr (p : List Nat) : Nat :=
  (p.getD 0 0) * 65536 + (p.getD 1 0) * 256 + p.getD 2 0

/-- ESI of a FEC repair packet, read from its fourth byte. -/
def repair_packet_esi (p : List Nat) : Nat := p.getD 3 0

/-- Block number of a FEC packet: source packets carry the payload ID as
a suffix, repair packets as a prefix. -/
def fec_packet_block_nr (p : List Nat) (is_source_packet : Bool) : Nat :=
  if is_source_packet then source_packet_block_nr p else repair_packet_block_nr p

/-- ESI of a FEC packet: source packets carry the payload ID as a
suffix, repair packets as a prefix. -/
def fec_packet_esi (p : List Nat) (is_source_packet : Bool) : Nat :=
  if is_source_packet then source_packet_esi p else repair_packet_esi p

/-- Shallow embedding of gst_rs_fec_dec_create_source_block
(gstrsfecdec.c lines 958-971): a zero-initialized block with an
output ADU table of num_source_symbols empty slots.  The insertion into
the hash table is performed by the caller in this model. -/
def gst_rs_fec_dec_create_source_block (cfg : DecCfg) (block_nr : Nat) : SourceBlock :=
  { block_nr := block_nr
    packet_mask := []
    source_packets := []
    repair_packets := []
    num_source_packets := 0
    num_repair_packets := 0
    output_adu_table := List.replicate cfg.num_source_symbols none
    is_complete := false }

/-- Shallow embedding of gst_rs_fec_dec_fetch_source_block: hash table
lookup by block number. -/
def gst_rs_fec_dec_fetch_source_block (s : DecState) (block_nr : Nat) : Option SourceBlock :=
  s.source_block_table.find? (fun b => b.block_nr == block_nr)

/-- Write an updated source block back into the table; this models the
in-place mutation the C code performs through the pointer stored in the
hash table. -/
def store_source_block (tbl : List SourceBlock) (b : SourceBlock) : List SourceBlock :=
  tbl.map (fun x => if x.block_nr == b.block_nr then b else x)

/-- Removal of a block from the table (g_hash_table_remove). -/
def remove_source_block (tbl : List SourceBlock) (nr : Nat) : List SourceBlock :=
  tbl.filter (fun x => ! (x.block_nr == nr))

/-- Append one observable event to the decoder state. -/
def emit (s : DecState) (e : DecEvent) : DecState :=
  { s with events := s.events ++ [e] }

/-- Shallow embedding of gst_rs_fec_dec_can_source_block_be_processed
(gstrsfecdec.c lines 1024-1029). -/
def gst_rs_fec_dec_can_source_block_be_processed (cfg : DecCfg) (b : SourceBlock) : Bool :=
  decide (b.num_source_packets + b.num_repair_packets ≥ cfg.num_source_symbols)

/-- One step of the per-ESI work in gst_rs_fec_dec_process_source_block.
The two C loops (over received source packets, and over source ESIs for
the recovered symbols) are merged into a single pass over ESI 0..k-1:
a received ESI keeps its extracted ADU in sorted mode and has its slot
cleared in immediate mode (the ADU was already pushed on reception); a
missing ESI receives the ADU recovered by the erasure-coding
collaborator (the oracle recover), stored in sorted mode or pushed
immediately and not stored otherwise. -/
def recovery_step (cfg : DecCfg) (recover : Nat → Nat → List Nat) (received : List Nat)
    (sb : DecState × SourceBlock) (esi : Nat) : DecState × SourceBlock :=
  if esi ∈ received then
    if cfg.sort_output then sb
    else (sb.1, { sb.2 with output_adu_table := sb.2.output_adu_table.set esi none })
  else
    if cfg.sort_output then
      (sb.1, { sb.2 with output_adu_table :=
        sb.2.output_adu_table.set esi (some (recover sb.2.block_nr esi)) })
    else
      (emit sb.1 (.push sb.2.block_nr esi (recover sb.2.block_nr esi)),
       { sb.2 with output_adu_table := sb.2.output_adu_table.set esi none })

/-- Shallow embedding of gst_rs_fec_dec_process_source_block
(gstrsfecdec.c lines 1032-1324).  When no repair packets are held the
block is marked complete directly; otherwise the OpenFEC collaborator
is invoked (recorded as a collab event) and the missing source ADUs are
recovered.  Collaborator failures are outside the embedded fragment: the
oracle always succeeds. -/
def gst_rs_fec_dec_process_source_block (cfg : DecCfg) (recover : Nat → Nat → List Nat)
    (s : DecState) (b : SourceBlock) : DecState × SourceBlock :=
  let s := emit s (.process b.block_nr)
  if b.num_repair_packets == 0 then
    (s, { b with is_complete := true })
  else
    let s := emit s (.collab b.block_nr)
    let sb := (List.range cfg.num_source_symbols).foldl
      (recovery_step cfg recover (b.source_packets.map source_packet_esi)) (s, b)
    (sb.1, { sb.2 with is_complete := true })

/-- Downstream pushes performed by gst_rs_fec_dec_push_source_block
(gstrsfecdec.c lines 1327-1359): the non-empty output ADU slots of a
block, in ascending ESI order. -/
def push_source_block_events (cfg : DecCfg) (b : SourceBlock) : List DecEvent :=
  (List.range cfg.num_source_symbols).filterMap (fun esi =>
    match b.output_adu_table.getD esi none with
    | some adu => some (.push b.block_nr esi adu)
    | none => none)

/-- Shared tail of pruning and draining: sort the evicted blocks with
gst_rs_fec_dec_compare_source_blocks (a raw numeric comparison of the
block numbers; g_slist_sort is a stable sort, modelled here by the
stable structural insertion sort with the same comparator) and push
each block downstream in that order. -/
def sort_and_push_blocks (cfg : DecCfg) (s : DecState) (blocks : List SourceBlock) : DecState :=
  (List.insertionSort (fun a b => a.block_nr ≤ b.block_nr) blocks).foldl
    (fun s b => { s with events := s.events ++ push_source_block_events cfg b }) s

/-- Shallow embedding of gst_rs_fec_dec_prune_source_block_table
(gstrsfecdec.c lines 1431-1519). -/
def gst_rs_fec_dec_prune_source_block_table (cfg : DecCfg) (s : DecState)
    (source_block_nr : Nat) : DecState × FlowRet :=
  if s.first_pruning then
    ({ s with most_recent_block_nr := source_block_nr, first_pruning := false }, .ok)
  else if source_block_nr == s.most_recent_block_nr then
    (s, .ok)
  else if gst_rs_fec_dec_is_source_block_nr_newer source_block_nr s.most_recent_block_nr then
    let pruned := s.source_block_table.filter (fun b =>
      ! gst_rs_fec_dec_is_source_block_nr_recent_enough b.block_nr source_block_nr cfg.max_source_block_age)
    let kept := s.source_block_table.filter (fun b =>
      gst_rs_fec_dec_is_source_block_nr_recent_enough b.block_nr source_block_nr cfg.max_source_block_age)
    let s := { s with most_recent_block_nr := source_block_nr, source_block_table := kept }
    if cfg.sort_output then (sort_and_push_blocks cfg s pruned, .ok)
    else (s, .ok)
  else (s, .ok)

/-- Shallow embedding of gst_rs_fec_dec_drain_source_block_table
(gstrsfecdec.c lines 1522-1568): every remaining block is removed,
sorted by block number and pushed downstream. -/
def gst_rs_fec_dec_drain_source_block_table (cfg : DecCfg) (s : DecState) : DecState :=
  sort_and_push_blocks cfg { s with source_block_table := [] } s.source_block_table

/-- Tail of gst_rs_fec_dec_insert_fec_packet (gstrsfecdec.c lines
931-948) after a packet has been recorded into block b (b already
written back into the table held by s): process the block if it has
become processable, remove it from the table afterwards when sorting is
disabled, and finally prune the table keyed on the packet's block
number.  Factored out of the insert embedding for proof modularity. -/
def gst_rs_fec_dec_insert_tail (cfg : DecCfg) (recover : Nat → Nat → List Nat)
    (s : DecState) (b : SourceBlock) (source_block_nr : Nat) : DecState × FlowRet :=
  if gst_rs_fec_dec_can_source_block_be_processed cfg b then
    let pb := gst_rs_fec_dec_process_source_block cfg recover s b
    let s2 := { pb.1 with source_block_table := store_source_block pb.1.source_block_table pb.2 }
    let s3 := if ! cfg.sort_output
              then { s2 with source_block_table := remove_source_block s2.source_block_table source_block_nr }
              else s2
    gst_rs_fec_dec_prune_source_block_table cfg s3 source_block_nr
  else
    gst_rs_fec_dec_prune_source_block_table cfg s source_block_nr

/-- Shallow embedding of gst_rs_fec_dec_insert_fec_packet
(gstrsfecdec.c lines 840-949), preserving the exact order of steps of
the C function: read the payload ID, fetch or create the source block,
discard if the block number is not recent enough, discard if the block
is complete, discard if the ESI is already present in the mask,
otherwise record the packet (extracting the ADU of a source packet into
the output table, and pushing it immediately when sorting is disabled),
then run the processing and pruning tail above. -/
def gst_rs_fec_dec_insert_fec_packet (cfg : DecCfg) (recover : Nat → Nat → List Nat)
    (s : DecState) (fec_packet : List Nat) (is_source_packet : Bool) : DecState × FlowRet :=
  let source_block_nr := fec_packet_block_nr fec_packet is_source_packet
  let esi := fec_packet_esi fec_packet is_source_packet
  let fc : DecState × SourceBlock :=
    match gst_rs_fec_dec_fetch_source_block s source_block_nr with
    | some b => (s, b)
    | none =>
        let b := gst_rs_fec_dec_create_source_block cfg source_block_nr
        ({ s with source_block_table := s.source_block_table ++ [b] }, b)
  if ! gst_rs_fec_dec_is_source_block_nr_recent_enough source_block_nr
      fc.1.most_recent_block_nr cfg.max_source_block_age then
    (fc.1, .ok)
  else if fc.2.is_complete then
    (fc.1, .ok)
  else if esi ∈ fc.2.packet_mask then
    (fc.1, .ok)
  else
    let b := { fc.2 with packet_mask := esi :: fc.2.packet_mask }
    let sb : DecState × SourceBlock :=
      if is_source_packet then
        let adu := fec_packet.take (fec_packet.length - 6)
        let b := { b with source_packets := fec_packet :: b.source_packets
                          num_source_packets := b.num_source_packets + 1
                          output_adu_table := b.output_adu_table.set esi (some adu) }
        if ! cfg.sort_output then (emit fc.1 (.push source_block_nr esi adu), b)
        else (fc.1, b)
      else
        (fc.1, { b with repair_packets := fec_packet :: b.repair_packets
                        num_repair_packets := b.num_repair_packets + 1 })
    let s1 := { sb.1 with source_block_table := store_source_block sb.1.source_block_table sb.2 }
    gst_rs_fec_dec_insert_tail cfg recover s1 sb.2 source_block_nr

/-- Initial decoder state fragment set up by gst_rs_fec_dec_init
(gstrsfecdec.c lines 382-384): empty table, first_pruning true and
most_recent_block_nr zero. -/
def gst_rs_fec_dec_initial_state : DecState :=
  { source_block_table := [], first_pruning := true, most_recent_block_nr := 0, events := [] }

/-- Shallow embedding of gst_rs_fec_dec_reset_states (gstrsfecdec.c
lines 1571-1586): first_pruning is set back to true while
most_recent_block_nr is left untouched. -/
def gst_rs_fec_dec_reset_states (s : DecState) : DecState :=
  { s with first_pruning := true }

/-- Shallow embedding of gst_rs_fec_dec_flush (gstrsfecdec.c lines
1589-1604): all leftover blocks are destroyed without being pushed,
then states are reset. -/
def gst_rs_fec_dec_flush (s : DecState) : DecState :=
  gst_rs_fec_dec_reset_states { s with source_block_table := [] }

/-- Recognizer for processing-invocation events. -/
def is_process_event : DecEvent → Bool
  | .process _ => true
  | _ => false

/-- Recognizer for collaborator-invocation events. -/
def is_collab_event : DecEvent → Bool
  | .collab _ => true
  | _ => false

/-- Key of a downstream ADU push event: the pair of the source block
number and the ESI the ADU was delivered under. -/
def push_key : DecEvent → Option (Nat × Nat)
  | .push block_nr esi _ => some (block_nr, esi)
  | _ => none

/-- Strict lexicographic order on (block number, ESI) pairs under raw
numeric comparison. -/
def lex_lt (a b : Nat × Nat) : Prop :=
  a.1 < b.1 ∨ (a.1 = b.1 ∧ a.2 < b.2)

/-- C7: inserting a packet whose block is already complete, or whose ESI
is already present in the block's packet mask, leaves the decoder state
bit-for-bit unchanged (table, counts, output tables, reference number,
event log) and reports no error: the duplicate is silently discarded. -/
theorem duplicate_insert_noop (cfg : DecCfg) (recover : Nat → Nat → List Nat)
    (s : DecState) (fec_packet : List Nat) (is_source_packet : Bool) (b : SourceBlock)
    (hfetch : gst_rs_fec_dec_fetch_source_block s (fec_packet_block_nr fec_packet is_source_packet) = some b)
    (hdup : b.is_complete = true ∨ fec_packet_esi fec_packet is_source_packet ∈ b.packet_mask) :
    gst_rs_fec_dec_insert_fec_packet cfg recover s fec_packet is_source_packet = (s, .ok) := by
  simp only [gst_rs_fec_dec_insert_fec_packet, hfetch]
  rcases hdup with hdup | hdup <;> split_ifs <;> simp_all

/-- Erasure-coding oracle used by the concrete witness runs: every
recovered ADU is the empty byte sequence. -/
def trivial_recover : Nat → Nat → List Nat := fun _ _ => []

/-- Concrete source block used by the C7 witness: block 3 already holds
the source packet with ESI 0. -/
def dup_demo_block : SourceBlock :=
  { block_nr := 3
    packet_mask := [0]
    source_packets := [[9, 0, 0, 3, 0, 0, 2]]
    repair_packets := []
    num_source_packets := 1
    num_repair_packets := 0
    output_adu_table := [some [9], none]
    is_complete := false }

/-- Concrete decoder state used by the C7 witness. -/
def dup_demo_state : DecState :=
  { source_block_table := [dup_demo_block]
    first_pruning := false
    most_recent_block_nr := 3
    events := [] }

/-- Concrete decoder configuration with two source symbols used by the
C7 witness. -/
def dup_demo_cfg : DecCfg :=
  { num_source_symbols := 2
    num_repair_symbols := 0
    max_source_block_age := 1
    sort_output := true }

/-- C7 witness: a duplicate source packet (ESI 0 already in the mask of
block 3) is discarded without any state change. -/
theorem duplicate_insert_noop_witness :
    (gst_rs_fec_dec_fetch_source_block dup_demo_state
        (fec_packet_block_nr [9, 0, 0, 3, 0, 0, 2] true) = some dup_demo_block
      ∧ (dup_demo_block.is_complete = true
        ∨ fec_packet_esi [9, 0, 0, 3, 0, 0, 2] true ∈ dup_demo_block.packet_mask))
    ∧ gst_rs_fec_dec_insert_fec_packet dup_demo_cfg trivial_recover dup_demo_state
        [9, 0, 0, 3, 0, 0, 2] true = (dup_demo_state, .ok) :=
  ⟨⟨by decide, by decide⟩,
    duplicate_insert_noop dup_demo_cfg trivial_recover dup_demo_state
      [9, 0, 0, 3, 0, 0, 2] true dup_demo_block (by decide) (by decide)⟩

/-- Shared description of an insertion whose block number is not recent
enough: the packet is discarded with no error, but because the C code
performs the fetch-or-create step before the age check, a fresh empty
source block is created and left in the table when the block number was
not yet a key. -/
theorem insert_not_recent_enough_eq (cfg : DecCfg) (recover : Nat → Nat → List Nat)
    (s : DecState) (fec_packet : List Nat) (is_source_packet : Bool)
    (hold : gst_rs_fec_dec_is_source_block_nr_recent_enough
        (fec_packet_block_nr fec_packet is_source_packet)
        s.most_recent_block_nr cfg.max_source_block_age = false) :
    gst_rs_fec_dec_insert_fec_packet cfg recover s fec_packet is_source_packet
      = (match gst_rs_fec_dec_fetch_source_block s (fec_packet_block_nr fec_packet is_source_packet) with
         | some _ => s
         | none => { s with source_block_table := s.source_block_table
             ++ [gst_rs_fec_dec_create_source_block cfg (fec_packet_block_nr fec_packet is_source_packet)] },
         .ok) := by
  cases hf : gst_rs_fec_dec_fetch_source_block s (fec_packet_block_nr fec_packet is_source_packet) <;>
    simp only [gst_rs_fec_dec_insert_fec_packet, hf, hold, Bool.not_false, if_true]

/-- Concrete decoder configuration (one source symbol, no repair, max
age 1, sorted output) for the aging scenarios. -/
def age_demo_cfg : DecCfg :=
  { num_source_symbols := 1
    num_repair_symbols := 0
    max_source_block_age := 1
    sort_output := true }

/-- Concrete decoder state reached from the initial state by inserting
the source packet of block 5 with ESI 0: block 5 is complete and the
reference number is 5. -/
def age_demo_state : DecState :=
  (gst_rs_fec_dec_insert_fec_packet age_demo_cfg trivial_recover
    gst_rs_fec_dec_initial_state [9, 0, 0, 5, 0, 0, 1] true).1

/-- C2 counterexample: the source packet of block 4 arriving at
age_demo_state is classified as not recent enough and discarded without
error, yet the source block table does change: a fresh empty
SourceBlock for block number 4 is created (the fetch-or-create step of
gst_rs_fec_dec_insert_fec_packet runs before the age check), refuting
the claim that no SourceBlock is touched or created for such packets. -/
theorem too_old_insert_counterexample :
    gst_rs_fec_dec_is_source_block_nr_recent_enough
        (fec_packet_block_nr [8, 0, 0, 4, 0, 0, 1] true)
        age_demo_state.most_recent_block_nr age_demo_cfg.max_source_block_age = false
    ∧ (gst_rs_fec_dec_insert_fec_packet age_demo_cfg trivial_recover age_demo_state
        [8, 0, 0, 4, 0, 0, 1] true).2 = .ok
    ∧ (gst_rs_fec_dec_insert_fec_packet age_demo_cfg trivial_recover age_demo_state
        [8, 0, 0, 4, 0, 0, 1] true).1.source_block_table ≠ age_demo_state.source_block_table
    ∧ (gst_rs_fec_dec_insert_fec_packet age_demo_cfg trivial_recover age_demo_state
        [8, 0, 0, 4, 0, 0, 1] true).1.source_block_table.map SourceBlock.block_nr = [5, 4] := by
  decide

/-- C2 amended: a packet whose block number is not recent enough is
discarded before being recorded anywhere: no error is reported, no
event is emitted, the reference number and first_pruning flag are
untouched and no existing block changes; however, because the
fetch-or-create step precedes the age check, an empty SourceBlock for
the packet's block number is created and left in the table whenever
that block number was not already a key. -/
theorem too_old_insert_discard_behavior (cfg : DecCfg) (recover : Nat → Nat → List Nat)
    (s : DecState) (fec_packet : List Nat) (is_source_packet : Bool)
    (hold : gst_rs_fec_dec_is_source_block_nr_recent_enough
        (fec_packet_block_nr fec_packet is_source_packet)
        s.most_recent_block_nr cfg.max_source_block_age = false) :
    (gst_rs_fec_dec_insert_fec_packet cfg recover s fec_packet is_source_packet).2 = .ok
    ∧ (gst_rs_fec_dec_insert_fec_packet cfg recover s fec_packet is_source_packet).1.events = s.events
    ∧ (gst_rs_fec_dec_insert_fec_packet cfg recover s fec_packet is_source_packet).1.most_recent_block_nr
        = s.most_recent_block_nr
    ∧ (gst_rs_fec_dec_insert_fec_packet cfg recover s fec_packet is_source_packet).1.first_pruning
        = s.first_pruning
    ∧ (gst_rs_fec_dec_insert_fec_packet cfg recover s fec_packet is_source_packet).1.source_block_table
        = (match gst_rs_fec_dec_fetch_source_block s (fec_packet_block_nr fec_packet is_source_packet) with
           | some _ => s.source_block_table
           | none => s.source_block_table
               ++ [gst_rs_fec_dec_create_source_block cfg (fec_packet_block_nr fec_packet is_source_packet)]) := by
  have h := insert_not_recent_enough_eq cfg recover s fec_packet is_source_packet hold
  rw [h]
  cases hf : gst_rs_fec_dec_fetch_source_block s (fec_packet_block_nr fec_packet is_source_packet) <;>
    simp [hf]

/-- C2 witness for the amended statement, at the concrete too-old packet
of the counterexample scenario. -/
theorem too_old_insert_discard_behavior_witness :
    gst_rs_fec_dec_is_source_block_nr_recent_enough
        (fec_packet_block_nr [8, 0, 0, 4, 0, 0, 1] true)
        age_demo_state.most_recent_block_nr age_demo_cfg.max_source_block_age = false
    ∧ ((gst_rs_fec_dec_insert_fec_packet age_demo_cfg trivial_recover age_demo_state
          [8, 0, 0, 4, 0, 0, 1] true).2 = .ok
      ∧ (gst_rs_fec_dec_insert_fec_packet age_demo_cfg trivial_recover age_demo_state
          [8, 0, 0, 4, 0, 0, 1] true).1.events = age_demo_state.events
      ∧ (gst_rs_fec_dec_insert_fec_packet age_demo_cfg trivial_recover age_demo_state
          [8, 0, 0, 4, 0, 0, 1] true).1.most_recent_block_nr = age_demo_state.most_recent_block_nr
      ∧ (gst_rs_fec_dec_insert_fec_packet age_demo_cfg trivial_recover age_demo_state
          [8, 0, 0, 4, 0, 0, 1] true).1.first_pruning = age_demo_state.first_pruning
      ∧ (gst_rs_fec_dec_insert_fec_packet age_demo_cfg trivial_recover age_demo_state
          [8, 0, 0, 4, 0, 0, 1] true).1.source_block_table
          = (match gst_rs_fec_dec_fetch_source_block age_demo_state
                (fec_packet_block_nr [8, 0, 0, 4, 0, 0, 1] true) with
             | some _ => age_demo_state.source_block_table
             | none => age_demo_state.source_block_table
                 ++ [gst_rs_fec_dec_create_source_block age_demo_cfg
                      (fec_packet_block_nr [8, 0, 0, 4, 0, 0, 1] true)])) :=
  ⟨by decide,
    too_old_insert_discard_behavior age_demo_cfg trivial_recover age_demo_state
      [8, 0, 0, 4, 0, 0, 1] true (by decide)⟩

/-- C4: the recent-enough age filter of the insert operation is applied
even before the first pruning has ever established a reference: the
decoder starts with most_recent_block_nr = 0 (and a flush restores
first_pruning to true while keeping the stale most_recent_block_nr), and
a packet arriving in that state whose block number fails the filter
against the reference value is silently discarded (no error, no event):
it is never recorded in any block, it never updates the reference, and
its ADU is never delivered. -/
theorem pre_reference_age_filter (cfg : DecCfg) (recover : Nat → Nat → List Nat)
    (s : DecState) (fec_packet : List Nat) (is_source_packet : Bool)
    (hfp : s.first_pruning = true)
    (hold : gst_rs_fec_dec_is_source_block_nr_recent_enough
        (fec_packet_block_nr fec_packet is_source_packet)
        s.most_recent_block_nr cfg.max_source_block_age = false) :
    gst_rs_fec_dec_initial_state.most_recent_block_nr = 0
    ∧ gst_rs_fec_dec_initial_state.first_pruning = true
    ∧ (∀ t : DecState, (gst_rs_fec_dec_reset_states t).most_recent_block_nr = t.most_recent_block_nr)
    ∧ (∀ t : DecState, (gst_rs_fec_dec_reset_states t).first_pruning = true)
    ∧ (gst_rs_fec_dec_insert_fec_packet cfg recover s fec_packet is_source_packet).2 = .ok
    ∧ (gst_rs_fec_dec_insert_fec_packet cfg recover s fec_packet is_source_packet).1.events = s.events
    ∧ (gst_rs_fec_dec_insert_fec_packet cfg recover s fec_packet is_source_packet).1.most_recent_block_nr
        = s.most_recent_block_nr
    ∧ (gst_rs_fec_dec_insert_fec_packet cfg recover s fec_packet is_source_packet).1.first_pruning = true
    ∧ (∀ b ∈ (gst_rs_fec_dec_insert_fec_packet cfg recover s fec_packet is_source_packet).1.source_block_table,
        b ∈ s.source_block_table
        ∨ b = gst_rs_fec_dec_create_source_block cfg (fec_packet_block_nr fec_packet is_source_packet)) := by
  have h := insert_not_recent_enough_eq cfg recover s fec_packet is_source_packet hold
  rw [h]
  cases hf : gst_rs_fec_dec_fetch_source_block s (fec_packet_block_nr fec_packet is_source_packet) <;>
    simp [hf, hfp, gst_rs_fec_dec_reset_states, gst_rs_fec_dec_initial_state] <;>
    exact fun b hb => Or.inl hb

/-- C4 witness: the very first packet of a stream whose block number is
8388608 (outside the window around the initial reference 0) is silently
discarded by the fresh decoder. -/
theorem pre_reference_age_filter_witness :
    (gst_rs_fec_dec_initial_state.first_pruning = true
      ∧ gst_rs_fec_dec_is_source_block_nr_recent_enough
          (fec_packet_block_nr [7, 128, 0, 0, 0, 0, 1] true)
          gst_rs_fec_dec_initial_state.most_recent_block_nr age_demo_cfg.max_source_block_age = false)
    ∧ (gst_rs_fec_dec_initial_state.most_recent_block_nr = 0
    ∧ gst_rs_fec_dec_initial_state.first_pruning = true
    ∧ (∀ t : DecState, (gst_rs_fec_dec_reset_states t).most_recent_block_nr = t.most_recent_block_nr)
    ∧ (∀ t : DecState, (gst_rs_fec_dec_reset_states t).first_pruning = true)
    ∧ (gst_rs_fec_dec_insert_fec_packet age_demo_cfg trivial_recover
        gst_rs_fec_dec_initial_state [7, 128, 0, 0, 0, 0, 1] true).2 = .ok
    ∧ (gst_rs_fec_dec_insert_fec_packet age_demo_cfg trivial_recover
        gst_rs_fec_dec_initial_state [7, 128, 0, 0, 0, 0, 1] true).1.events
        = gst_rs_fec_dec_initial_state.events
    ∧ (gst_rs_fec_dec_insert_fec_packet age_demo_cfg trivial_recover
        gst_rs_fec_dec_initial_state [7, 128, 0, 0, 0, 0, 1] true).1.most_recent_block_nr
        = gst_rs_fec_dec_initial_state.most_recent_block_nr
    ∧ (gst_rs_fec_dec_insert_fec_packet age_demo_cfg trivial_recover
        gst_rs_fec_dec_initial_state [7, 128, 0, 0, 0, 0, 1] true).1.first_pruning = true
    ∧ (∀ b ∈ (gst_rs_fec_dec_insert_fec_packet age_demo_cfg trivial_recover
          gst_rs_fec_dec_initial_state [7, 128, 0, 0, 0, 0, 1] true).1.source_block_table,
        b ∈ gst_rs_fec_dec_initial_state.source_block_table
        ∨ b = gst_rs_fec_dec_create_source_block age_demo_cfg
            (fec_packet_block_nr [7, 128, 0, 0, 0, 0, 1] true))) :=
  ⟨⟨by decide, by decide⟩,
    pre_reference_age_filter age_demo_cfg trivial_recover gst_rs_fec_dec_initial_state
      [7, 128, 0, 0, 0, 0, 1] true (by decide) (by decide)⟩

/-- Number of processing invocations recorded in an event list. -/
def process_event_count (events : List DecEvent) : Nat :=
  events.countP is_process_event

theorem push_events_not_process (cfg : DecCfg) (b : SourceBlock) :
    ∀ e ∈ push_source_block_events cfg b, is_process_event e = false := by
  intro e he
  rcases List.mem_filterMap.mp he with ⟨i, _, hfe⟩
  revert hfe
  cases b.output_adu_table.getD i none <;> simp <;> rintro rfl <;> rfl

theorem sort_and_push_process_count (cfg : DecCfg) (s : DecState) (blocks : List SourceBlock) :
    process_event_count (sort_and_push_blocks cfg s blocks).events = process_event_count s.events := by
  unfold sort_and_push_blocks
  generalize List.insertionSort (fun a b => a.block_nr ≤ b.block_nr) blocks = l
  induction l generalizing s with
  | nil => rfl
  | cons b t ih =>
      simp only [List.foldl_cons]
      rw [ih]
      unfold process_event_count
      rw [List.countP_append]
      have hz : (push_source_block_events cfg b).countP is_process_event = 0 :=
        List.countP_eq_zero.mpr (by
          intro e he
          simp [push_events_not_process cfg b e he])
      simp [hz]

theorem prune_process_count (cfg : DecCfg) (s : DecState) (nr : Nat) :
    process_event_count (gst_rs_fec_dec_prune_source_block_table cfg s nr).1.events
      = process_event_count s.events := by
  unfold gst_rs_fec_dec_prune_source_block_table
  split_ifs <;> first
    | rfl
    | exact sort_and_push_process_count cfg _ _

theorem recovery_step_events (cfg : DecCfg) (recover : Nat → Nat → List Nat)
    (received : List Nat) (sb : DecState × SourceBlock) (i : Nat) :
    (recovery_step cfg recover received sb i).1.events = sb.1.events
    ∨ (recovery_step cfg recover received sb i).1.events
        = sb.1.events ++ [DecEvent.push sb.2.block_nr i (recover sb.2.block_nr i)] := by
  unfold recovery_step
  split_ifs <;> simp [emit]

theorem recovery_fold_process_count (cfg : DecCfg) (recover : Nat → Nat → List Nat)
    (received : List Nat) (l : List Nat) (s : DecState) (b : SourceBlock) :
    process_event_count ((l.foldl (recovery_step cfg recover received) (s, b)).1.events)
      = process_event_count s.events := by
  induction l generalizing s b with
  | nil => rfl
  | cons i t ih =>
      simp only [List.foldl_cons]
      have hstep := recovery_step_events cfg recover received (s, b) i
      have heq : (recovery_step cfg recover received (s, b) i)
          = ((recovery_step cfg recover received (s, b) i).1,
             (recovery_step cfg recover received (s, b) i).2) := rfl
      rw [heq, ih]
      rcases hstep with h | h <;> rw [h] <;>
        simp [process_event_count, List.countP_append, is_process_event]

theorem process_source_block_process_count (cfg : DecCfg) (recover : Nat → Nat → List Nat)
    (s : DecState) (b : SourceBlock) :
    process_event_count ((gst_rs_fec_dec_process_source_block cfg recover s b).1.events)
      = process_event_count s.events + 1 := by
  unfold gst_rs_fec_dec_process_source_block
  split_ifs with h
  · simp [emit, process_event_count, List.countP_append, is_process_event]
  · rw [recovery_fold_process_count]
    simp [emit, process_event_count, List.countP_append, is_process_event]

theorem insert_tail_process_count (cfg : DecCfg) (recover : Nat → Nat → List Nat)
    (s : DecState) (b : SourceBlock) (nr : Nat) :
    process_event_count (gst_rs_fec_dec_insert_tail cfg recover s b nr).1.events
      = process_event_count s.events
        + (if gst_rs_fec_dec_can_source_block_be_processed cfg b then 1 else 0) := by
  unfold gst_rs_fec_dec_insert_tail
  split_ifs with h h2 <;>
    rw [prune_process_count] <;>
    try rfl
  all_goals
    show process_event_count (gst_rs_fec_dec_process_source_block cfg recover s b).1.events = _
    rw [process_source_block_process_count]

/-- C5: recovery is attempted for a block exactly when the received
source plus repair packet count reaches the configured number of source
symbols: the processability test is literally that comparison, and an
insertion that records a packet invokes block processing exactly once
when the new total reaches the threshold and not at all while the total
stays below it. -/
theorem recoverability_threshold (cfg : DecCfg) (recover : Nat → Nat → List Nat)
    (s : DecState) (fec_packet : List Nat) (is_source_packet : Bool) (b : SourceBlock)
    (hb : b = (gst_rs_fec_dec_fetch_source_block s (fec_packet_block_nr fec_packet is_source_packet)).getD
        (gst_rs_fec_dec_create_source_block cfg (fec_packet_block_nr fec_packet is_source_packet)))
    (hrecent : gst_rs_fec_dec_is_source_block_nr_recent_enough
        (fec_packet_block_nr fec_packet is_source_packet)
        s.most_recent_block_nr cfg.max_source_block_age = true)
    (hnc : b.is_complete = false)
    (hnm : fec_packet_esi fec_packet is_source_packet ∉ b.packet_mask) :
    gst_rs_fec_dec_can_source_block_be_processed cfg b
      = decide (cfg.num_source_symbols ≤ b.num_source_packets + b.num_repair_packets)
    ∧ process_event_count
        (gst_rs_fec_dec_insert_fec_packet cfg recover s fec_packet is_source_packet).1.events
      = process_event_count s.events
        + (if cfg.num_source_symbols ≤ b.num_source_packets + b.num_repair_packets + 1 then 1 else 0) := by
  constructor
  · rfl
  · cases hfetch : gst_rs_fec_dec_fetch_source_block s (fec_packet_block_nr fec_packet is_source_packet) with
    | none =>
        rw [hfetch] at hb
        simp only [Option.getD_none] at hb
        subst hb
        simp only [gst_rs_fec_dec_insert_fec_packet, hfetch, hrecent, Bool.not_true,
          Bool.false_eq_true, if_false, hnc, if_neg hnm]
        cases is_source_packet <;> by_cases hsort : cfg.sort_output <;>
          simp only [hsort, Bool.not_true, Bool.not_false, Bool.false_eq_true,
            eq_self_iff_true, if_true, if_false] <;>
          rw [insert_tail_process_count] <;>
          simp only [gst_rs_fec_dec_can_source_block_be_processed,
            gst_rs_fec_dec_create_source_block, emit, process_event_count,
            List.countP_append, List.countP_cons, List.countP_nil, is_process_event,
            ge_iff_le, decide_eq_true_eq, Bool.false_eq_true, if_false] <;>
          split_ifs <;> omega
    | some b0 =>
        rw [hfetch] at hb
        simp only [Option.getD_some] at hb
        subst hb
        simp only [gst_rs_fec_dec_insert_fec_packet, hfetch, hrecent, Bool.not_true,
          Bool.false_eq_true, if_false, hnc, if_neg hnm]
        cases is_source_packet <;> by_cases hsort : cfg.sort_output <;>
          simp only [hsort, Bool.not_true, Bool.not_false, Bool.false_eq_true,
            eq_self_iff_true, if_true, if_false] <;>
          rw [insert_tail_process_count] <;>
          simp only [gst_rs_fec_dec_can_source_block_be_processed, emit, process_event_count,
            List.countP_append, List.countP_cons, List.countP_nil, is_process_event,
            ge_iff_le, decide_eq_true_eq, Bool.false_eq_true, if_false] <;>
          split_ifs <;> omega

/-- C5 witness: inserting the source packet with ESI 1 into block 3,
which already holds one of the two required packets, brings the total
to the threshold and triggers exactly one processing invocation. -/
theorem recoverability_threshold_witness :
    (dup_demo_block
        = (gst_rs_fec_dec_fetch_source_block dup_demo_state
            (fec_packet_block_nr [5, 0, 0, 3, 1, 0, 2] true)).getD
          (gst_rs_fec_dec_create_source_block dup_demo_cfg
            (fec_packet_block_nr [5, 0, 0, 3, 1, 0, 2] true))
      ∧ gst_rs_fec_dec_is_source_block_nr_recent_enough
          (fec_packet_block_nr [5, 0, 0, 3, 1, 0, 2] true)
          dup_demo_state.most_recent_block_nr dup_demo_cfg.max_source_block_age = true
      ∧ dup_demo_block.is_complete = false
      ∧ fec_packet_esi [5, 0, 0, 3, 1, 0, 2] true ∉ dup_demo_block.packet_mask)
    ∧ (gst_rs_fec_dec_can_source_block_be_processed dup_demo_cfg dup_demo_block
      = decide (dup_demo_cfg.num_source_symbols
          ≤ dup_demo_block.num_source_packets + dup_demo_block.num_repair_packets)
    ∧ process_event_count
        (gst_rs_fec_dec_insert_fec_packet dup_demo_cfg trivial_recover dup_demo_state
          [5, 0, 0, 3, 1, 0, 2] true).1.events
      = process_event_count dup_demo_state.events
        + (if dup_demo_cfg.num_source_symbols
            ≤ dup_demo_block.num_source_packets + dup_demo_block.num_repair_packets + 1
           then 1 else 0)) :=
  ⟨⟨by decide, by decide, by decide, by decide⟩,
    recoverability_threshold dup_demo_cfg trivial_recover dup_demo_state
      [5, 0, 0, 3, 1, 0, 2] true dup_demo_block (by decide) (by decide) (by decide) (by decide)⟩

/-- C6: processing a block that holds no repair packets (all required
packets are source packets, which is also the only possibility when
repair symbols are disabled) marks the block complete directly: the only
recorded event is the processing marker itself, so the erasure-coding
collaborator is never invoked and nothing is pushed by the processing
step, the output ADU table is left exactly as the per-packet extraction
filled it, and all num_source_symbols output slots are already
occupied. -/
theorem zero_repair_completion (cfg : DecCfg) (recover : Nat → Nat → List Nat)
    (s : DecState) (b : SourceBlock)
    (hr : b.num_repair_packets = 0)
    (hesis : ∀ e ∈ b.source_packets.map source_packet_esi, e < cfg.num_source_symbols)
    (hnd : (b.source_packets.map source_packet_esi).Nodup)
    (hcnt : b.source_packets.length = b.num_source_packets)
    (hfill : ∀ e ∈ b.source_packets.map source_packet_esi,
        (b.output_adu_table.getD e none).isSome = true)
    (hproc : gst_rs_fec_dec_can_source_block_be_processed cfg b = true) :
    (gst_rs_fec_dec_process_source_block cfg recover s b).1.events
        = s.events ++ [DecEvent.process b.block_nr]
    ∧ (gst_rs_fec_dec_process_source_block cfg recover s b).2.is_complete = true
    ∧ (gst_rs_fec_dec_process_source_block cfg recover s b).2.output_adu_table
        = b.output_adu_table
    ∧ ∀ i, i < cfg.num_source_symbols → (b.output_adu_table.getD i none).isSome = true := by
  refine ⟨?_, ?_, ?_, ?_⟩
  · simp [gst_rs_fec_dec_process_source_block, hr, emit]
  · simp [gst_rs_fec_dec_process_source_block, hr, emit]
  · simp [gst_rs_fec_dec_process_source_block, hr, emit]
  · intro i hi
    have hsub : (b.source_packets.map source_packet_esi).toFinset
        ⊆ Finset.range cfg.num_source_symbols := by
      intro x hx
      simp only [List.mem_toFinset] at hx
      exact Finset.mem_range.mpr (hesis x hx)
    have hcard : (Finset.range cfg.num_source_symbols).card
        ≤ (b.source_packets.map source_packet_esi).toFinset.card := by
      rw [Finset.card_range, List.toFinset_card_of_nodup hnd, List.length_map, hcnt]
      simp only [gst_rs_fec_dec_can_source_block_be_processed, ge_iff_le,
        decide_eq_true_eq] at hproc
      omega
    have heq := Finset.eq_of_subset_of_card_le hsub hcard
    have hmem : i ∈ (b.source_packets.map source_packet_esi).toFinset :=
      heq ▸ Finset.mem_range.mpr hi
    exact hfill i (List.mem_toFinset.mp hmem)

/-- Concrete complete-by-sources block used by the C6 witness: block 3
holds both source packets (ESIs 1 and 0) and no repair packets. -/
def full_demo_block : SourceBlock :=
  { block_nr := 3
    packet_mask := [1, 0]
    source_packets := [[5, 0, 0, 3, 1, 0, 2], [9, 0, 0, 3, 0, 0, 2]]
    repair_packets := []
    num_source_packets := 2
    num_repair_packets := 0
    output_adu_table := [some [9], some [5]]
    is_complete := false }

/-- C6 witness at the concrete block holding its two source packets. -/
theorem zero_repair_completion_witness :
    (full_demo_block.num_repair_packets = 0
      ∧ (∀ e ∈ full_demo_block.source_packets.map source_packet_esi,
          e < dup_demo_cfg.num_source_symbols)
      ∧ (full_demo_block.source_packets.map source_packet_esi).Nodup
      ∧ full_demo_block.source_packets.length = full_demo_block.num_source_packets
      ∧ (∀ e ∈ full_demo_block.source_packets.map source_packet_esi,
          (full_demo_block.output_adu_table.getD e none).isSome = true)
      ∧ gst_rs_fec_dec_can_source_block_be_processed dup_demo_cfg full_demo_block = true)
    ∧ ((gst_rs_fec_dec_process_source_block dup_demo_cfg trivial_recover
          dup_demo_state full_demo_block).1.events
        = dup_demo_state.events ++ [DecEvent.process full_demo_block.block_nr]
    ∧ (gst_rs_fec_dec_process_source_block dup_demo_cfg trivial_recover
        dup_demo_state full_demo_block).2.is_complete = true
    ∧ (gst_rs_fec_dec_process_source_block dup_demo_cfg trivial_recover
        dup_demo_state full_demo_block).2.output_adu_table
        = full_demo_block.output_adu_table
    ∧ ∀ i, i < dup_demo_cfg.num_source_symbols →
        (full_demo_block.output_adu_table.getD i none).isSome = true) :=
  ⟨⟨by decide, by decide, by decide, by decide, by decide, by decide⟩,
    zero_repair_completion dup_demo_cfg trivial_recover dup_demo_state full_demo_block
      (by decide) (by decide) (by decide) (by decide) (by decide) (by decide)⟩

/-- Events appended by the shared sort-and-push delivery tail: the
pushed blocks come after the prior events, in merge-sorted order. -/
theorem sort_and_push_events_suffix (cfg : DecCfg) (s : DecState) (blocks : List SourceBlock) :
    (sort_and_push_blocks cfg s blocks).events
      = s.events ++ (List.insertionSort (fun a b => a.block_nr ≤ b.block_nr) blocks).flatMap
          (push_source_block_events cfg) := by
  unfold sort_and_push_blocks
  generalize List.insertionSort (fun a b => a.block_nr ≤ b.block_nr) blocks = l
  induction l generalizing s with
  | nil => simp
  | cons b t ih =>
      simp only [List.foldl_cons, List.flatMap_cons]
      rw [ih]
      simp [List.append_assoc]

/-- Every ADU pushed while delivering one block carries that block's
number. -/
theorem push_block_key_of_mem (cfg : DecCfg) (b : SourceBlock)
    (x : Nat × Nat) (hx : x ∈ (push_source_block_events cfg b).filterMap push_key) :
    x.1 = b.block_nr := by
  rcases List.mem_filterMap.mp hx with ⟨e, he, hpe⟩
  rcases List.mem_filterMap.mp he with ⟨j, _, hje⟩
  revert hje
  cases b.output_adu_table.getD j none <;> simp
  rintro rfl
  simp only [push_key, Option.some.injEq] at hpe
  rw [← hpe]

/-- Within one delivered block the pushed ADUs are in strictly
increasing ESI order. -/
theorem push_block_keys_pairwise (cfg : DecCfg) (b : SourceBlock) :
    List.Pairwise lex_lt ((push_source_block_events cfg b).filterMap push_key) := by
  unfold push_source_block_events
  rw [List.filterMap_filterMap, List.pairwise_filterMap]
  apply List.Pairwise.imp ?_ (List.pairwise_lt_range cfg.num_source_symbols)
  intro i j hij x hx y hy
  have hx1 : x = (b.block_nr, i) := by
    revert hx
    cases b.output_adu_table.getD i none with
    | none => intro hx; simp [Option.none_bind, Option.mem_def] at hx
    | some adu =>
        intro hx
        simp only [Option.some_bind, push_key, Option.mem_def, Option.some.injEq] at hx
        exact hx.symm
  have hy1 : y = (b.block_nr, j) := by
    revert hy
    cases b.output_adu_table.getD j none with
    | none => intro hy; simp [Option.none_bind, Option.mem_def] at hy
    | some adu =>
        intro hy
        simp only [Option.some_bind, push_key, Option.mem_def, Option.some.injEq] at hy
        exact hy.symm
  subst hx1; subst hy1
  exact Or.inr ⟨rfl, hij⟩

/-- Commutation of filterMap with flatMap used to split per-block key
sequences. -/
theorem filterMap_flatMap_comm {α β γ : Type} (l : List α) (f : α → List β) (g : β → Option γ) :
    (l.flatMap f).filterMap g = l.flatMap (fun a => (f a).filterMap g) := by
  induction l with
  | nil => rfl
  | cons a t ih => simp [List.flatMap_cons, List.filterMap_append, ih]

/-- C1 amended: the blocks evicted together by pruning (sorted mode) or
by draining are delivered through the shared sort-and-push tail, and the
ADUs it pushes downstream are in strictly increasing (blockNr, ESI)
lexicographic order under raw numeric comparison of the block numbers
(not wrap-around circular order), provided the evicted blocks have
pairwise distinct block numbers (hash table keys).  In particular, when
the evicted blocks straddle the 2^24 wrap point, the block numbered near
0 is delivered before the block numbered near 2^24-1. -/
theorem sorted_eviction_delivery_raw_order (cfg : DecCfg) (s : DecState)
    (blocks : List SourceBlock)
    (hnd : (blocks.map SourceBlock.block_nr).Nodup) :
    List.Pairwise lex_lt
      (((sort_and_push_blocks cfg s blocks).events.drop s.events.length).filterMap push_key)
    ∧ gst_rs_fec_dec_drain_source_block_table cfg s
        = sort_and_push_blocks cfg { s with source_block_table := [] } s.source_block_table := by
  constructor
  · rw [sort_and_push_events_suffix, List.drop_left, filterMap_flatMap_comm,
      List.pairwise_flatMap]
    constructor
    · intro a _
      exact push_block_keys_pairwise cfg a
    · haveI : IsTotal SourceBlock (fun a b => a.block_nr ≤ b.block_nr) :=
        ⟨fun a b => Nat.le_total a.block_nr b.block_nr⟩
      haveI : IsTrans SourceBlock (fun a b => a.block_nr ≤ b.block_nr) :=
        ⟨fun _ _ _ => Nat.le_trans⟩
      have hsorted := List.sorted_insertionSort (fun a b => a.block_nr ≤ b.block_nr) blocks
      have hperm := List.perm_insertionSort (fun a b => a.block_nr ≤ b.block_nr) blocks
      have hnd2 : ((List.insertionSort (fun a b => a.block_nr ≤ b.block_nr) blocks).map
          SourceBlock.block_nr).Nodup :=
        ((hperm.map SourceBlock.block_nr).symm).nodup hnd
      have hne := List.pairwise_map.mp hnd2
      have hlt : List.Pairwise (fun a b : SourceBlock => a.block_nr < b.block_nr)
          (List.insertionSort (fun a b => a.block_nr ≤ b.block_nr) blocks) :=
        (hsorted.and hne).imp (fun h => lt_of_le_of_ne h.1 h.2)
      apply hlt.imp
      intro a b hab x hx y hy
      have hxa := push_block_key_of_mem cfg a x hx
      have hyb := push_block_key_of_mem cfg b y hy
      exact Or.inl (by rw [hxa, hyb]; exact hab)
  · rfl

/-- Concrete decoder configuration (one source symbol, no repair, max
age 2, sorted output) for the wrap-around delivery scenario. -/
def wrap_demo_cfg : DecCfg :=
  { num_source_symbols := 1
    num_repair_symbols := 0
    max_source_block_age := 2
    sort_output := true }

/-- Concrete decoder state reached from the initial state by inserting
the source packet of block 16777215 (ESI 0) and then the source packet
of block 0 (ESI 0): both blocks are complete and coexist in the table,
straddling the 2^24 wrap point. -/
def wrap_demo_state : DecState :=
  (gst_rs_fec_dec_insert_fec_packet wrap_demo_cfg trivial_recover
    (gst_rs_fec_dec_insert_fec_packet wrap_demo_cfg trivial_recover
      gst_rs_fec_dec_initial_state [42, 255, 255, 255, 0, 0, 1] true).1
    [43, 0, 0, 0, 0, 0, 1] true).1

/-- C1 counterexample: in sorted-output mode, draining the table that
holds blocks 16777215 and 0 delivers the ADU of block 0 first and the
ADU of block 16777215 second, even though block 0 is classified newer
than block 16777215 (so wrap-around circular order would deliver
16777215 first): the delivery sort uses raw numeric comparison of block
numbers, refuting the wrap-aware ordering stated by the claim. -/
theorem sorted_mode_wrap_delivery_counterexample :
    wrap_demo_cfg.sort_output = true
    ∧ wrap_demo_state.source_block_table.map SourceBlock.block_nr = [16777215, 0]
    ∧ gst_rs_fec_dec_is_source_block_nr_newer 0 16777215 = true
    ∧ (gst_rs_fec_dec_drain_source_block_table wrap_demo_cfg wrap_demo_state).events.filterMap
        push_key = [(0, 0), (16777215, 0)] := by
  decide

/-- C1 witness for the amended statement at the concrete two-block
table straddling the wrap point. -/
theorem sorted_eviction_delivery_raw_order_witness :
    (wrap_demo_state.source_block_table.map SourceBlock.block_nr).Nodup
    ∧ (List.Pairwise lex_lt
        (((sort_and_push_blocks wrap_demo_cfg wrap_demo_state
            wrap_demo_state.source_block_table).events.drop
              wrap_demo_state.events.length).filterMap push_key)
    ∧ gst_rs_fec_dec_drain_source_block_table wrap_demo_cfg wrap_demo_state
        = sort_and_push_blocks wrap_demo_cfg
            { wrap_demo_state with source_block_table := [] }
            wrap_demo_state.source_block_table) :=
  ⟨by decide,
    sorted_eviction_delivery_raw_order wrap_demo_cfg wrap_demo_state
      wrap_demo_state.source_block_table (by decide)⟩

/-- Encoder configuration properties, immutable once the OpenFEC
session exists. -/
structure EncCfg where
  num_source_symbols : Nat
  num_repair_symbols : Nat
deriving DecidableEq, Repr

/-- Observable encoder events: FEC source packets pushed on the
fecsource pad and FEC repair packets pushed on the fecrepair pad, in
chronological order. -/
inductive EncEvent
  | src_packet (bytes : List Nat)
  | repair_packet (bytes : List Nat)
deriving DecidableEq, Repr

/-- Encoder state fragment relevant to block assembly
(gstrsfecenc.c, fields of GstRSFECEnc): the running 24-bit-stamped
block counter, the pending ADU table with its count and maximum length
tracking, the EOS flag, and the log of pushed packets. -/
structure EncState where
  cur_source_block_nr : Nat
  cur_num_adus : Nat
  adu_table : List (Option (List Nat))
  cur_max_adu_length : Nat
  eos_received : Bool
  events : List EncEvent
deriving DecidableEq, Repr

/-- The 6-byte FEC payload ID layout written by gst_rs_fec_enc_push_adu
(gstrsfecenc.c lines 798-808) and by the repair loop (lines 1125-1134):
24-bit big-endian block number, 8-bit ESI, 16-bit big-endian number of
source symbols. -/
def fec_payload_id (num_source_symbols source_block_nr esi : Nat) : List Nat :=
  [source_block_nr / 65536 % 256, source_block_nr / 256 % 256, source_block_nr % 256,
   esi % 256, num_source_symbols / 256 % 256, num_source_symbols % 256]

/-- Shallow embedding of gst_rs_fec_enc_push_adu (gstrsfecenc.c lines
787-852): the FEC source packet is the ADU with the payload ID appended
as a suffix, pushed immediately. -/
def gst_rs_fec_enc_push_adu (cfg : EncCfg) (s : EncState) (adu : List Nat) (esi : Nat) : EncState :=
  { s with events := s.events ++ [EncEvent.src_packet
      (adu ++ fec_payload_id cfg.num_source_symbols s.cur_source_block_nr esi)] }

/-- Shallow embedding of gst_rs_fec_enc_insert_adu (gstrsfecenc.c lines
766-784): store the ADU at its ESI and track the maximum ADU length. -/
def gst_rs_fec_enc_insert_adu (s : EncState) (adu : List Nat) (esi : Nat) : EncState :=
  { s with cur_max_adu_length := max adu.length s.cur_max_adu_length
           adu_table := s.adu_table.set esi (some adu) }

/-- One iteration of the repair emission loop of
gst_rs_fec_enc_process_source_block (gstrsfecenc.c lines 1103-1162):
repair symbol i is built by the erasure-coding collaborator (the oracle
build_repair, given the block number, the ESI and the encoding symbol
length) and pushed as a FEC repair packet with the payload ID as a
prefix. -/
def emit_repair_packet_step (cfg : EncCfg) (build_repair : Nat → Nat → Nat → List Nat)
    (source_block_nr encoding_symbol_length : Nat) (s : EncState) (i : Nat) : EncState :=
  { s with events := s.events ++ [EncEvent.repair_packet
      (fec_payload_id cfg.num_source_symbols source_block_nr (i + cfg.num_source_symbols)
        ++ build_repair source_block_nr (i + cfg.num_source_symbols) encoding_symbol_length)] }

/-- Shallow embedding of gst_rs_fec_enc_process_source_block
(gstrsfecenc.c lines 920-1178) on its success path: nothing happens
until exactly num_source_symbols ADUs are pending; then, when repair
symbols are configured, the pending ADUs are consumed into ADUIs for
the collaborator (clearing the table and count) and the repair packets
are emitted; the block counter is incremented only after the emission
completes, and the cleanup clause clears the per-block accumulation
state (pending table, count, maximum length). -/
def gst_rs_fec_enc_process_source_block (cfg : EncCfg) (build_repair : Nat → Nat → Nat → List Nat)
    (s : EncState) : EncState × FlowRet :=
  if s.cur_num_adus < cfg.num_source_symbols then (s, .ok)
  else
    let source_block_nr := s.cur_source_block_nr
    let encoding_symbol_length := 1 + 2 + s.cur_max_adu_length
    let s1 := if 0 < cfg.num_repair_symbols
              then { s with adu_table := List.replicate cfg.num_source_symbols none
                            cur_num_adus := 0 }
              else s
    let s2 := (List.range cfg.num_repair_symbols).foldl
      (emit_repair_packet_step cfg build_repair source_block_nr encoding_symbol_length) s1
    let s3 := { s2 with cur_source_block_nr := s2.cur_source_block_nr + 1 }
    ({ s3 with adu_table := List.replicate cfg.num_source_symbols none
               cur_num_adus := 0
               cur_max_adu_length := 0 }, .ok)

/-- Shallow embedding of gst_rs_fec_enc_sink_chain (gstrsfecenc.c lines
443-501): data after EOS is dropped; an ADU larger than 65535 bytes is
rejected with a stream error (GST_ELEMENT_ERROR + GST_FLOW_ERROR) and
nothing else happens; otherwise the ADU is pushed as a FEC source
packet with ESI = cur_num_adus, stored in the pending table, the count
is incremented and block processing is attempted. -/
def gst_rs_fec_enc_sink_chain (cfg : EncCfg) (build_repair : Nat → Nat → Nat → List Nat)
    (s : EncState) (buffer : List Nat) : EncState × FlowRet :=
  if s.eos_received then (s, .eos)
  else if 65535 < buffer.length then (s, .error)
  else
    let esi := s.cur_num_adus
    let s1 := gst_rs_fec_enc_push_adu cfg s buffer esi
    let s2 := gst_rs_fec_enc_insert_adu s1 buffer esi
    let s3 := { s2 with cur_num_adus := s2.cur_num_adus + 1 }
    gst_rs_fec_enc_process_source_block cfg build_repair s3

/-- Shallow embedding of gst_rs_fec_enc_flush_all_adus (gstrsfecenc.c
lines 855-876). -/
def gst_rs_fec_enc_flush_all_adus (cfg : EncCfg) (s : EncState) : EncState :=
  if s.cur_num_adus == 0 then s
  else { s with adu_table := List.replicate cfg.num_source_symbols none
                cur_num_adus := 0 }

/-- Shallow embedding of gst_rs_fec_enc_reset_states (gstrsfecenc.c
lines 1181-1196): the per-block maximum length and the EOS flag are
reset; cur_source_block_nr is deliberately not touched. -/
def gst_rs_fec_enc_reset_states (s : EncState) : EncState :=
  { s with cur_max_adu_length := 0
           eos_received := false }

/-- Shallow embedding of gst_rs_fec_enc_flush (gstrsfecenc.c lines
1199-1204).  The repair packet table only holds entries transiently on
a collaborator error path, which is outside the embedded fragment. -/
def gst_rs_fec_enc_flush (cfg : EncCfg) (s : EncState) : EncState :=
  gst_rs_fec_enc_reset_states (gst_rs_fec_enc_flush_all_adus cfg s)

/-- Initial encoder state fragment set up by gst_rs_fec_enc_init
(gstrsfecenc.c lines 214-237) and the table allocation of
gst_rs_fec_enc_init_openfec. -/
def gst_rs_fec_enc_initial_state (cfg : EncCfg) : EncState :=
  { cur_source_block_nr := 0
    cur_num_adus := 0
    adu_table := List.replicate cfg.num_source_symbols none
    cur_max_adu_length := 0
    eos_received := false
    events := [] }

/-- Operations driving the encoder: an incoming ADU on the sink pad, or
a flush (FLUSH_STOP event or PAUSED-to-READY transition). -/
inductive EncOp
  | chain (adu : List Nat)
  | flush
deriving DecidableEq, Repr

/-- Run a sequence of encoder operations. -/
def run_enc_ops (cfg : EncCfg) (build_repair : Nat → Nat → Nat → List Nat)
    (ops : List EncOp) (s : EncState) : EncState :=
  ops.foldl (fun s op =>
    match op with
    | .chain adu => (gst_rs_fec_enc_sink_chain cfg build_repair s adu).1
    | .flush => gst_rs_fec_enc_flush cfg s) s

/-- Block number stamped in an emitted packet, as a receiver decodes it:
from the trailing payload ID of a source packet, from the leading
payload ID of a repair packet. -/
def packet_block_nr_stamp : EncEvent → Nat
  | .src_packet bytes => bytes.getD (bytes.length - 6) 0 * 65536
      + bytes.getD (bytes.length - 5) 0 * 256 + bytes.getD (bytes.length - 4) 0
  | .repair_packet bytes => bytes.getD 0 0 * 65536 + bytes.getD 1 0 * 256 + bytes.getD 2 0

/-- Erasure-coding oracle used by concrete encoder runs: every built
repair symbol is the empty byte sequence. -/
def trivial_build : Nat → Nat → Nat → List Nat := fun _ _ _ => []

/-- Concrete encoder configuration (four source symbols, two repair
symbols) for the oversize-ADU scenario. -/
def over_demo_cfg : EncCfg :=
  { num_source_symbols := 4
    num_repair_symbols := 2 }

/-- Concrete encoder state reached from the initial state by submitting
one three-byte ADU: the block in progress holds one pending ADU. -/
def over_demo_state : EncState :=
  (gst_rs_fec_enc_sink_chain over_demo_cfg trivial_build
    (gst_rs_fec_enc_initial_state over_demo_cfg) [1, 2, 3]).1

/-- C3 counterexample: submitting a 70000-byte ADU to an encoder that
already holds one pending ADU is rejected with a stream error and emits
nothing, but the in-progress block's accumulated state is NOT
discarded: the pending ADU count is still 1, the pending ADU table
still holds the first ADU, and the maximum-ADU-length tracking still
reads 3, refuting the claim that the accumulated state is discarded by
the rejection. -/
theorem oversize_adu_counterexample :
    65535 < (List.replicate 70000 (0 : Nat)).length
    ∧ (gst_rs_fec_enc_sink_chain over_demo_cfg trivial_build over_demo_state
        (List.replicate 70000 0)).2 = .error
    ∧ (gst_rs_fec_enc_sink_chain over_demo_cfg trivial_build over_demo_state
        (List.replicate 70000 0)).1.cur_num_adus = 1
    ∧ (gst_rs_fec_enc_sink_chain over_demo_cfg trivial_build over_demo_state
        (List.replicate 70000 0)).1.adu_table
        ≠ List.replicate over_demo_cfg.num_source_symbols none
    ∧ (gst_rs_fec_enc_sink_chain over_demo_cfg trivial_build over_demo_state
        (List.replicate 70000 0)).1.cur_max_adu_length = 3 := by
  have he : over_demo_state.eos_received = false := by decide
  have hl : 65535 < (List.replicate 70000 (0 : Nat)).length := by
    rw [List.length_replicate]
    omega
  have hred : gst_rs_fec_enc_sink_chain over_demo_cfg trivial_build over_demo_state
      (List.replicate 70000 0) = (over_demo_state, .error) := by
    unfold gst_rs_fec_enc_sink_chain
    rw [he, if_neg (by simp), if_pos hl]
  refine ⟨hl, ?_, ?_, ?_, ?_⟩ <;> rw [hred] <;> decide

/-- C3 amended: an ADU longer than 65535 bytes submitted before EOS is
rejected with a stream error, no source or repair packet is emitted for
it, and the encoder state is left bit-for-bit unchanged: the
in-progress block's accumulated state (pending ADU table, collected-ADU
count, maximum-length tracking) is retained rather than discarded; it
is cleared only by a separate explicit flush/reset, which does reset
the count and length tracking. -/
theorem oversize_adu_rejection (cfg : EncCfg) (build_repair : Nat → Nat → Nat → List Nat)
    (s : EncState) (adu : List Nat)
    (heos : s.eos_received = false) (hsize : 65535 < adu.length) :
    gst_rs_fec_enc_sink_chain cfg build_repair s adu = (s, .error)
    ∧ (gst_rs_fec_enc_flush cfg s).cur_num_adus = 0
    ∧ (gst_rs_fec_enc_flush cfg s).cur_max_adu_length = 0 := by
  refine ⟨?_, ?_, ?_⟩
  · unfold gst_rs_fec_enc_sink_chain
    rw [heos, if_neg (by simp), if_pos hsize]
  · unfold gst_rs_fec_enc_flush gst_rs_fec_enc_reset_states gst_rs_fec_enc_flush_all_adus
    split_ifs with h
    · simpa using h
    · rfl
  · unfold gst_rs_fec_enc_flush gst_rs_fec_enc_reset_states gst_rs_fec_enc_flush_all_adus
    split_ifs <;> rfl

/-- C3 witness at the concrete oversize submission of the
counterexample scenario. -/
theorem oversize_adu_rejection_witness :
    (over_demo_state.eos_received = false ∧ 65535 < (List.replicate 70000 (0 : Nat)).length)
    ∧ (gst_rs_fec_enc_sink_chain over_demo_cfg trivial_build over_demo_state
        (List.replicate 70000 0) = (over_demo_state, .error)
    ∧ (gst_rs_fec_enc_flush over_demo_cfg over_demo_state).cur_num_adus = 0
    ∧ (gst_rs_fec_enc_flush over_demo_cfg over_demo_state).cur_max_adu_length = 0) :=
  ⟨⟨by decide, by rw [List.length_replicate]; omega⟩,
    oversize_adu_rejection over_demo_cfg trivial_build over_demo_state
      (List.replicate 70000 0) (by decide) (by rw [List.length_replicate]; omega)⟩

/-- Events appended by the repair emission loop: one repair packet per
loop index, in order. -/
theorem emit_repair_fold_events (cfg : EncCfg) (build_repair : Nat → Nat → Nat → List Nat)
    (nr esl : Nat) (l : List Nat) (s : EncState) :
    (l.foldl (emit_repair_packet_step cfg build_repair nr esl) s).events
        = s.events ++ l.map (fun i => EncEvent.repair_packet
            (fec_payload_id cfg.num_source_symbols nr (i + cfg.num_source_symbols)
              ++ build_repair nr (i + cfg.num_source_symbols) esl)) := by
  induction l generalizing s with
  | nil => simp
  | cons i t ih =>
      simp only [List.foldl_cons, List.map_cons]
      rw [ih]
      simp [emit_repair_packet_step, List.append_assoc]

/-- The repair emission loop does not change the block counter. -/
theorem emit_repair_fold_nr (cfg : EncCfg) (build_repair : Nat → Nat → Nat → List Nat)
    (nr esl : Nat) (l : List Nat) (s : EncState) :
    (l.foldl (emit_repair_packet_step cfg build_repair nr esl) s).cur_source_block_nr
        = s.cur_source_block_nr := by
  induction l generalizing s with
  | nil => rfl
  | cons i t ih =>
      simp only [List.foldl_cons]
      rw [ih]
      rfl

/-- Characterization of a successful sink_chain call (no EOS, ADU size
within bounds): the FEC source packet is emitted, stamped with the
current counter, and exactly when the ADU completes a block the repair
packets are emitted with the same stamp and the counter advances by
one. -/
theorem sink_chain_records (cfg : EncCfg) (build_repair : Nat → Nat → Nat → List Nat)
    (s : EncState) (adu : List Nat)
    (he : s.eos_received = false) (hl : ¬ 65535 < adu.length) :
    (gst_rs_fec_enc_sink_chain cfg build_repair s adu).1.events
        = (if s.cur_num_adus + 1 < cfg.num_source_symbols
           then s.events ++ [EncEvent.src_packet (adu ++ fec_payload_id cfg.num_source_symbols
               s.cur_source_block_nr s.cur_num_adus)]
           else (s.events ++ [EncEvent.src_packet (adu ++ fec_payload_id cfg.num_source_symbols
               s.cur_source_block_nr s.cur_num_adus)])
             ++ (List.range cfg.num_repair_symbols).map (fun i => EncEvent.repair_packet
                 (fec_payload_id cfg.num_source_symbols s.cur_source_block_nr
                     (i + cfg.num_source_symbols)
                   ++ build_repair s.cur_source_block_nr (i + cfg.num_source_symbols)
                       (1 + 2 + max adu.length s.cur_max_adu_length))))
    ∧ (gst_rs_fec_enc_sink_chain cfg build_repair s adu).1.cur_source_block_nr
        = (if s.cur_num_adus + 1 < cfg.num_source_symbols
           then s.cur_source_block_nr else s.cur_source_block_nr + 1) := by
  constructor
  · simp only [gst_rs_fec_enc_sink_chain, gst_rs_fec_enc_process_source_block,
      gst_rs_fec_enc_push_adu, gst_rs_fec_enc_insert_adu, he, hl,
      Bool.false_eq_true, if_false, if_true]
    split_ifs with h hr
    · rfl
    · dsimp only
      rw [emit_repair_fold_events]
    · dsimp only
      rw [emit_repair_fold_events]
  · simp only [gst_rs_fec_enc_sink_chain, gst_rs_fec_enc_process_source_block,
      gst_rs_fec_enc_push_adu, gst_rs_fec_enc_insert_adu, he, hl,
      Bool.false_eq_true, if_false, if_true]
    split_ifs with h hr
    · rfl
    · dsimp only
      rw [emit_repair_fold_nr]
    · dsimp only
      rw [emit_repair_fold_nr]

/-- The block number a receiver decodes from an emitted FEC source
packet is the stamping counter reduced modulo 2^24. -/
theorem src_packet_stamp (k nr esi : Nat) (adu : List Nat) :
    packet_block_nr_stamp (.src_packet (adu ++ fec_payload_id k nr esi)) = nr % 16777216 := by
  have hlen : (adu ++ fec_payload_id k nr esi).length = adu.length + 6 := by
    simp [fec_payload_id]
  simp only [packet_block_nr_stamp, hlen]
  rw [List.getD_append_right _ _ _ _ (by omega),
    List.getD_append_right _ _ _ _ (by omega),
    List.getD_append_right _ _ _ _ (by omega)]
  have h4 : adu.length + 6 - 6 - adu.length = 0 := by omega
  have h5 : adu.length + 6 - 5 - adu.length = 1 := by omega
  have h6 : adu.length + 6 - 4 - adu.length = 2 := by omega
  rw [h4, h5, h6]
  simp only [fec_payload_id, List.getD_cons_zero, List.getD_cons_succ]
  omega

/-- The block number a receiver decodes from an emitted FEC repair
packet is the stamping counter reduced modulo 2^24. -/
theorem repair_packet_stamp (k nr esi : Nat) (rest : List Nat) :
    packet_block_nr_stamp (.repair_packet (fec_payload_id k nr esi ++ rest)) = nr % 16777216 := by
  simp only [packet_block_nr_stamp, fec_payload_id, List.cons_append,
    List.getD_cons_zero, List.getD_cons_succ]
  omega

/-- Monotone stamping invariant: the packets emitted so far carry 24-bit
block number stamps obtained by reducing a non-decreasing sequence of
counter values, all bounded by the current block counter. -/
def StampedMonotone (s : EncState) : Prop :=
  ∃ cs : List Nat, List.Pairwise (· ≤ ·) cs
    ∧ s.events.map packet_block_nr_stamp = cs.map (· % 16777216)
    ∧ ∀ c ∈ cs, c ≤ s.cur_source_block_nr

/-- A flush preserves the monotone stamping invariant: it leaves both
the event log and the block counter untouched. -/
theorem flush_stamped_monotone (cfg : EncCfg) (s : EncState) (h : StampedMonotone s) :
    StampedMonotone (gst_rs_fec_enc_flush cfg s) := by
  have hev : (gst_rs_fec_enc_flush cfg s).events = s.events ∧
      (gst_rs_fec_enc_flush cfg s).cur_source_block_nr = s.cur_source_block_nr := by
    unfold gst_rs_fec_enc_flush gst_rs_fec_enc_reset_states gst_rs_fec_enc_flush_all_adus
    split_ifs <;> exact ⟨rfl, rfl⟩
  rcases h with ⟨cs, h1, h2, h3⟩
  exact ⟨cs, h1, by rw [hev.1]; exact h2, by rw [hev.2]; exact h3⟩

/-- An arriving ADU preserves the monotone stamping invariant: all
packets it triggers are stamped with the current counter, and the
counter only ever grows. -/
theorem chain_stamped_monotone (cfg : EncCfg) (build_repair : Nat → Nat → Nat → List Nat)
    (s : EncState) (adu : List Nat) (h : StampedMonotone s) :
    StampedMonotone (gst_rs_fec_enc_sink_chain cfg build_repair s adu).1 := by
  rcases h with ⟨cs, h1, h2, h3⟩
  by_cases he : s.eos_received = true
  · unfold gst_rs_fec_enc_sink_chain
    rw [if_pos he]
    exact ⟨cs, h1, h2, h3⟩
  · have he2 : s.eos_received = false := by simpa using he
    by_cases hl : 65535 < adu.length
    · unfold gst_rs_fec_enc_sink_chain
      rw [he2, if_neg (by simp : ¬ (false = true)), if_pos hl]
      exact ⟨cs, h1, h2, h3⟩
    · have hrec := sink_chain_records cfg build_repair s adu he2 hl
      by_cases hcnt : s.cur_num_adus + 1 < cfg.num_source_symbols
      · rw [if_pos hcnt, if_pos hcnt] at hrec
        refine ⟨cs ++ [s.cur_source_block_nr], ?_, ?_, ?_⟩
        · rw [List.pairwise_append]
          refine ⟨h1, List.pairwise_singleton _ _, ?_⟩
          intro a ha b hb
          rw [List.mem_singleton] at hb
          subst hb
          exact h3 a ha
        · rw [hrec.1]
          simp only [List.map_append, List.map_cons, List.map_nil, src_packet_stamp, h2]
        · intro c hc
          rw [hrec.2]
          rcases List.mem_append.mp hc with hc | hc
          · exact h3 c hc
          · rw [List.mem_singleton] at hc
            subst hc
            exact Nat.le_refl _
      · rw [if_neg hcnt, if_neg hcnt] at hrec
        refine ⟨cs ++ s.cur_source_block_nr
            :: (List.range cfg.num_repair_symbols).map (fun _ => s.cur_source_block_nr),
            ?_, ?_, ?_⟩
        · rw [List.pairwise_append]
          refine ⟨h1, ?_, ?_⟩
          · rw [List.pairwise_cons]
            refine ⟨?_, List.pairwise_map.mpr ((List.pairwise_lt_range _).imp
              (fun _ => Nat.le_refl _))⟩
            intro a ha
            rcases List.mem_map.mp ha with ⟨_, _, rfl⟩
            exact Nat.le_refl _
          · intro a ha b hb
            have hb2 : b = s.cur_source_block_nr := by
              rcases List.mem_cons.mp hb with hb | hb
              · exact hb
              · rcases List.mem_map.mp hb with ⟨_, _, rfl⟩
                rfl
            subst hb2
            exact h3 a ha
        · rw [hrec.1]
          simp only [List.map_append, List.map_cons, List.map_nil, List.map_map,
            Function.comp_def, src_packet_stamp, repair_packet_stamp, h2,
            List.append_assoc, List.singleton_append]
        · intro c hc
          rw [hrec.2]
          rcases List.mem_append.mp hc with hc | hc
          · exact Nat.le_succ_of_le (h3 c hc)
          · have hc2 : c = s.cur_source_block_nr := by
              rcases List.mem_cons.mp hc with hc | hc
              · exact hc
              · rcases List.mem_map.mp hc with ⟨_, _, rfl⟩
                rfl
            subst hc2
            exact Nat.le_succ _

/-- The monotone stamping invariant is preserved by every sequence of
encoder operations. -/
theorem run_enc_ops_stamped_monotone (cfg : EncCfg) (build_repair : Nat → Nat → Nat → List Nat)
    (ops : List EncOp) : ∀ s : EncState, StampedMonotone s →
    StampedMonotone (run_enc_ops cfg build_repair ops s) := by
  induction ops with
  | nil => exact fun s h => h
  | cons op t ih =>
      intro s h
      cases op with
      | chain adu => exact ih _ (chain_stamped_monotone cfg build_repair s adu h)
      | flush => exact ih _ (flush_stamped_monotone cfg s h)

/-- C10: the encoder's block counter survives flushes and resets
untouched, is incremented exactly when a block's emission completes
(never for a partially collected block), and consequently over every
operation sequence from the initial state, including flushes, the block
numbers stamped into the emitted packets are the modulo-2^24 reductions
of a monotonically non-decreasing counter sequence: a resumed stream
never restarts the block-number sequence. -/
theorem encoder_block_counter_monotonic (cfg : EncCfg)
    (build_repair : Nat → Nat → Nat → List Nat) (ops : List EncOp) :
    (∀ s : EncState, (gst_rs_fec_enc_flush cfg s).cur_source_block_nr = s.cur_source_block_nr)
    ∧ (∀ s : EncState,
        (gst_rs_fec_enc_reset_states s).cur_source_block_nr = s.cur_source_block_nr)
    ∧ (∀ s : EncState,
        (gst_rs_fec_enc_process_source_block cfg build_repair s).1.cur_source_block_nr
          = if s.cur_num_adus < cfg.num_source_symbols then s.cur_source_block_nr
            else s.cur_source_block_nr + 1)
    ∧ StampedMonotone (run_enc_ops cfg build_repair ops (gst_rs_fec_enc_initial_state cfg)) := by
  refine ⟨?_, ?_, ?_, ?_⟩
  · intro s
    unfold gst_rs_fec_enc_flush gst_rs_fec_enc_reset_states gst_rs_fec_enc_flush_all_adus
    split_ifs <;> rfl
  · intro s
    rfl
  · intro s
    unfold gst_rs_fec_enc_process_source_block
    split_ifs with h hr
    · rfl
    · dsimp only
      rw [emit_repair_fold_nr]
    · dsimp only
      rw [emit_repair_fold_nr]
  · refine run_enc_ops_stamped_monotone cfg build_repair ops _ ⟨[], List.Pairwise.nil, rfl, ?_⟩
    intro c hc
    cases hc
